import Mathlib

/-!
Shallow embedding of `src/main.py` (Monitor Doorstroom: ROC van Twente → Saxion),
a Streamlit dashboard that ingests DUO "Herkomst ho-studenten" CSV files,
concatenates them, coerces the `Aantal` and `Jaar` columns, filters by a source
institution and a set of destination institutions, and computes grouped-sum
aggregates for KPIs and charts.

Modelling conventions:
- A table is a `List` of rows, preserving pandas row order.
- A missing cell (pandas `NaN`) in a string column is `Option.none`.
- A raw numeric cell is modelled as `RawCell`: either a value `pandas.to_numeric`
  can parse (the `Jaar` and `Aantal` columns of the DUO files hold whole numbers,
  so the parsed value is modelled as `ℤ`), a non-parsable cell, or a missing cell.
- pandas `==` comparison against `NaN` is `False`, `NaN.isin(strings)` is `False`,
  and `groupby` (with its default `dropna=True`) drops rows whose group key is
  missing; all three are reflected by the `Option` handling below.
- `sorted` / pandas key sorting is code-point lexicographic on strings, embedded
  by `strLe`; stable sorts (Python `sorted`, pandas `nlargest` with the default
  `keep='first'`) are embedded by `List.insertionSort`, which is stable.
-/

namespace DuoMonitor

/-- A raw cell of a numeric column, as seen by `pd.to_numeric(errors='coerce')`:
a parsable numeric value, a non-parsable value (coerced to `NaN`), or a missing
cell (`NaN`). -/
inductive RawCell where
  | numeric (n : ℤ)
  | nonNumeric
  | missing
deriving DecidableEq, Repr

/-- One row of a successfully parsed DUO CSV file, before column coercion.
String columns hold `none` for a missing (`NaN`) cell. -/
structure RawRow where
  jaar : RawCell
  aantal : RawCell
  herkomstInstelling : Option String
  herkomstOnderwijssoort : Option String
  hoInstelling : Option String
  hoOpleiding : Option String
deriving DecidableEq, Repr

/-- One row of the combined table after coercion of `Aantal` and `Jaar`
(main.py lines 40-41). -/
structure Row where
  jaar : ℤ
  aantal : ℤ
  herkomstInstelling : Option String
  herkomstOnderwijssoort : Option String
  hoInstelling : Option String
  hoOpleiding : Option String
deriving DecidableEq, Repr

/-- Embedding of `pd.to_numeric(combined['Aantal'], errors='coerce').fillna(0)` on one cell
(main.py line 40). -/
def coerce_aantal : RawCell → ℤ
  | .numeric n => n
  | .nonNumeric => 0
  | .missing => 0

/-- Embedding of `pd.to_numeric(combined['Jaar'], errors='coerce').fillna(0).astype(int)` on
one cell (main.py line 41); on whole-number cells `astype(int)` is the
identity. -/
def coerce_jaar : RawCell → ℤ
  | .numeric n => n
  | .nonNumeric => 0
  | .missing => 0

/-- Column-wise coercion of one concatenated row (main.py lines 40-41). -/
def combineRow (r : RawRow) : Row :=
  { jaar := coerce_jaar r.jaar
    aantal := coerce_aantal r.aantal
    herkomstInstelling := r.herkomstInstelling
    herkomstOnderwijssoort := r.herkomstOnderwijssoort
    hoInstelling := r.hoInstelling
    hoOpleiding := r.hoOpleiding }

/-- An uploaded file: its name together with the outcome of
`pd.read_csv(file, sep=None, engine='python')` — either the parsed rows or the
exception message (main.py line 32). -/
structure UploadedFile where
  name : String
  parsed : Except String (List RawRow)
deriving Repr

/-- The table a file contributes to `all_data`, if it parses. -/
def okTable (f : UploadedFile) : Option (List RawRow) :=
  f.parsed.toOption

/-- The `st.error(f"Fout bij laden van {file.name}: {e}")` report a failing file
produces: the file name and the cause (main.py line 35). -/
def errPair (f : UploadedFile) : Option (String × String) :=
  match f.parsed with
  | .ok _ => none
  | .error e => some (f.name, e)

/-- One iteration of the `for file in files` loop of `load_and_combine_data`
(main.py lines 28-35): a successful parse appends to `all_data`, a failure
appends an error report. -/
def load_step (acc : List (List RawRow) × List (String × String)) (f : UploadedFile) :
    List (List RawRow) × List (String × String) :=
  match f.parsed with
  | .ok df => (acc.1 ++ [df], acc.2)
  | .error e => (acc.1, acc.2 ++ [(f.name, e)])

/-- The whole ingestion loop of `load_and_combine_data` (main.py lines 27-35). -/
def load_loop (files : List UploadedFile) :
    List (List RawRow) × List (String × String) :=
  files.foldl load_step ([], [])

/-- Embedding of `load_and_combine_data` (main.py lines 26-43): if `all_data` is non-empty,
concatenate (`pd.concat(..., ignore_index=True)`) and coerce the `Aantal` and
`Jaar` columns, else return `None`.  The second component is the list of
user-visible error reports issued along the way. -/
def load_and_combine_data (files : List UploadedFile) :
    Option (List Row) × List (String × String) :=
  let ad := load_loop files
  if ad.1.isEmpty then (none, ad.2)
  else (some ((ad.1.flatten).map combineRow), ad.2)

/-- Code-point comparison of char lists; this is Python's `<=` on strings
restricted to the order skeleton used by `sorted`. -/
def strLeAux : List Char → List Char → Bool
  | [], _ => true
  | _ :: _, [] => false
  | a :: as, b :: bs =>
    if a.val < b.val then true
    else if b.val < a.val then false
    else strLeAux as bs

/-- Python's lexicographic code-point `<=` on strings, the order used by
`sorted(...)` and by pandas when sorting group keys. -/
def strLe (a b : String) : Bool :=
  strLeAux a.data b.data

/-- Relation form of `strLe`, for `List.insertionSort`. -/
def strLeP (a b : String) : Prop :=
  strLe a b = true

instance : DecidableRel strLeP :=
  fun a b => instDecidableEqBool (strLe a b) true

/-- Embedding of Python `sorted(...)` on a list of strings. -/
def sortStr (l : List String) : List String :=
  List.insertionSort strLeP l

/-- Embedding of `sorted(data['Herkomst naam instelling'].dropna().unique())` (main.py
line 56): the options of the source-institution selector. -/
def alle_herkomst (data : List Row) : List String :=
  sortStr (data.filterMap (fun r => r.herkomstInstelling)).dedup

/-- Embedding of `sorted(data['HO naam instelling'].dropna().unique())` (main.py line 67):
the options of the destination multi-selector. -/
def alle_ho (data : List Row) : List String :=
  sortStr (data.filterMap (fun r => r.hoInstelling)).dedup

/-- Embedding of `data[data[herkomst_col] == selected_herkomst]` (main.py line 72): pandas
`==` against `NaN` is `False`, so a row with a missing source name never
matches. -/
def filtered_df (data : List Row) (selected_herkomst : String) : List Row :=
  data.filter (fun r => r.herkomstInstelling == some selected_herkomst)

/-- Embedding of `filtered_df[filtered_df[bestemming_col].isin(selected_ho)]` (main.py
line 73): `NaN.isin(list-of-strings)` is `False`. -/
def ho_subset (data : List Row) (selected_herkomst : String)
    (selected_ho : List String) : List Row :=
  (filtered_df data selected_herkomst).filter (fun r =>
    match r.hoInstelling with
    | some h => selected_ho.contains h
    | none => false)

/-- Descending order on years, for `sorted(..., reverse=True)`. -/
def geIntP (a b : ℤ) : Prop :=
  b ≤ a

instance : DecidableRel geIntP :=
  fun a b => Int.decLe b a

instance : IsTotal ℤ geIntP :=
  ⟨fun a b => le_total b a⟩

instance : IsTrans ℤ geIntP :=
  ⟨fun _ _ _ hab hbc => le_trans hbc hab⟩

/-- Embedding of `jaren = sorted(ho_subset['Jaar'].unique(), reverse=True)` (main.py
line 78). -/
def jaren (hs : List Row) : List ℤ :=
  List.insertionSort geIntP ((hs.map (fun r => r.jaar)).dedup)

/-- Embedding of `huidig_jaar = jaren[0] if jaren else 2024` (main.py line 79). -/
def huidig_jaar (hs : List Row) : ℤ :=
  (jaren hs).headD 2024

/-- Embedding of `vorig_jaar = huidig_jaar - 1` (main.py line 80). -/
def vorig_jaar (hs : List Row) : ℤ :=
  huidig_jaar hs - 1

/-- Embedding of `df['Aantal'].sum()` over a (filtered) table. -/
def sumAantal (t : List Row) : ℤ :=
  (t.map (fun r => r.aantal)).sum

/-- Embedding of `totaal_huidig = ho_subset[ho_subset['Jaar'] == huidig_jaar]['Aantal'].sum()`
(main.py line 82). -/
def totaal_huidig (hs : List Row) : ℤ :=
  sumAantal (hs.filter (fun r => r.jaar == huidig_jaar hs))

/-- Embedding of `totaal_vorig = ho_subset[ho_subset['Jaar'] == vorig_jaar]['Aantal'].sum()`
(main.py line 83). -/
def totaal_vorig (hs : List Row) : ℤ :=
  sumAantal (hs.filter (fun r => r.jaar == vorig_jaar hs))

/-- The KPI delta (main.py lines 85-88): `None` unless `totaal_vorig > 0`, else
`totaal_huidig - totaal_vorig` (the string formatting around the number is
presentation-surface and omitted). -/
def delta (hs : List Row) : Option ℤ :=
  if 0 < totaal_vorig hs then some (totaal_huidig hs - totaal_vorig hs) else none

/-- Embedding of `len(ho_subset[bestemming_col].unique())` (main.py line 91); pandas
`unique()` keeps `NaN` as a value, hence `Option String`. -/
def kpi_instellingen (hs : List Row) : ℕ :=
  (hs.map (fun r => r.hoInstelling)).dedup.length

/-- Embedding of `len(ho_subset['HO naam opleiding'].unique())` (main.py line 92). -/
def kpi_opleidingen (hs : List Row) : ℕ :=
  (hs.map (fun r => r.hoOpleiding)).dedup.length

/-- The sorted distinct group keys of a one-column `groupby(col)` with the
default `dropna=True`: rows whose key is `NaN` are dropped, and the grouped
output is sorted by key. -/
def groupKeysStr (key : Row → Option String) (t : List Row) : List String :=
  sortStr (t.filterMap key).dedup

/-- Embedding of `t.groupby(col)['Aantal'].sum().reset_index()` for a single string column:
one output row per distinct non-missing key, in sorted key order, with the sum
of `Aantal` over the rows carrying that key. -/
def groupbySumStr (key : Row → Option String) (t : List Row) :
    List (String × ℤ) :=
  (groupKeysStr key t).map (fun k => (k, sumAantal (t.filter (fun r => key r == some k))))

/-- Lexicographic order on (`Jaar`, string-key) pairs, the key order of a
two-level `groupby(['Jaar', col])`. -/
def leJaarStrP (a b : ℤ × String) : Prop :=
  a.1 < b.1 ∨ (a.1 = b.1 ∧ strLeP a.2 b.2)

instance : DecidableRel leJaarStrP :=
  fun _ _ => instDecidableOr

/-- The key pair a row contributes to `groupby(['Jaar', col])`, if its string
key is present. -/
def keyPair (key : Row → Option String) (r : Row) : Option (ℤ × String) :=
  (key r).map (fun s => (r.jaar, s))

/-- The sorted distinct group keys of `groupby(['Jaar', col])` with the default
`dropna=True`. -/
def groupKeys2 (key : Row → Option String) (t : List Row) : List (ℤ × String) :=
  List.insertionSort leJaarStrP (t.filterMap (keyPair key)).dedup

/-- Embedding of `t.groupby(['Jaar', col])['Aantal'].sum().reset_index()`. -/
def groupbySum2 (key : Row → Option String) (t : List Row) :
    List ((ℤ × String) × ℤ) :=
  (groupKeys2 key t).map (fun p =>
    (p, sumAantal (t.filter (fun r => r.jaar == p.1 && key r == some p.2))))

/-- Embedding of `trend_data = ho_subset.groupby(['Jaar', bestemming_col])['Aantal'].sum().reset_index()`
(main.py line 99). -/
def trend_data (hs : List Row) : List ((ℤ × String) × ℤ) :=
  groupbySum2 (fun r => r.hoInstelling) hs

/-- Embedding of `markt_data = filtered_df[filtered_df['Jaar'] == huidig_jaar].groupby(bestemming_col)['Aantal'].sum().reset_index()`
(main.py line 108): computed over `filtered_df`, not `ho_subset`. -/
def markt_data (fd : List Row) (huidig : ℤ) : List (String × ℤ) :=
  groupbySumStr (fun r => r.hoInstelling) (fd.filter (fun r => r.jaar == huidig))

/-- The grouped table of main.py line 119:
`ho_subset[ho_subset['Jaar'] == huidig_jaar].groupby('HO naam opleiding')['Aantal'].sum().reset_index()`. -/
def sector_data_grouped (hs : List Row) (huidig : ℤ) : List (String × ℤ) :=
  groupbySumStr (fun r => r.hoOpleiding) (hs.filter (fun r => r.jaar == huidig))

/-- Descending order on the summed counts, for `nlargest(10, 'Aantal')`. -/
def geValP (a b : String × ℤ) : Prop :=
  b.2 ≤ a.2

instance : DecidableRel geValP :=
  fun a b => Int.decLe b.2 a.2

instance : IsTotal (String × ℤ) geValP :=
  ⟨fun a b => le_total b.2 a.2⟩

instance : IsTrans (String × ℤ) geValP :=
  ⟨fun _ _ _ hab hbc => le_trans hbc hab⟩

/-- Embedding of `df.nlargest(n, 'Aantal')` with the default `keep='first'`: stable sort by
value descending, keep the first `n` rows. -/
def nlargest (n : ℕ) (t : List (String × ℤ)) : List (String × ℤ) :=
  (List.insertionSort geValP t).take n

/-- Embedding of `sector_data = sector_data.nlargest(10, 'Aantal')` (main.py lines 119-120). -/
def sector_data (hs : List Row) (huidig : ℤ) : List (String × ℤ) :=
  nlargest 10 (sector_data_grouped hs huidig)

/-- Embedding of `herkomst_type = ho_subset.groupby(['Jaar', 'Herkomst onderwijssoort'])['Aantal'].sum().reset_index()`
(main.py line 129). -/
def herkomst_type (hs : List Row) : List ((ℤ × String) × ℤ) :=
  groupbySum2 (fun r => r.herkomstOnderwijssoort) hs

/-- The output surface one run of the script hands to the presentation layer:
the combined table, both filtered views, the KPI values and the four grouped
aggregates (main.py lines 45-137). -/
structure DashboardView where
  data : List Row
  filtered : List Row
  subsetHO : List Row
  huidig : ℤ
  vorig : ℤ
  totHuidig : ℤ
  totVorig : ℤ
  deltaKPI : Option ℤ
  kpiInstellingen : ℕ
  kpiOpleidingen : ℕ
  trend : List ((ℤ × String) × ℤ)
  markt : List (String × ℤ)
  sector : List (String × ℤ)
  herkomstType : List ((ℤ × String) × ℤ)
deriving DecidableEq, Repr

/-- One full run of the script on a batch of uploaded files and the two filter
selections: ingestion and combination, then (if data arrived) the filtered
views, KPIs and aggregates; `none` is the "upload files to start" state
(main.py lines 45-140). -/
def runDashboard (files : List UploadedFile) (selected_herkomst : String)
    (selected_ho : List String) : Option DashboardView × List (String × String) :=
  match load_and_combine_data files with
  | (none, errs) => (none, errs)
  | (some d, errs) =>
    let fd := filtered_df d selected_herkomst
    let hs := ho_subset d selected_herkomst selected_ho
    (some
      { data := d
        filtered := fd
        subsetHO := hs
        huidig := huidig_jaar hs
        vorig := vorig_jaar hs
        totHuidig := totaal_huidig hs
        totVorig := totaal_vorig hs
        deltaKPI := delta hs
        kpiInstellingen := kpi_instellingen hs
        kpiOpleidingen := kpi_opleidingen hs
        trend := trend_data hs
        markt := markt_data fd (huidig_jaar hs)
        sector := sector_data hs (huidig_jaar hs)
        herkomstType := herkomst_type hs }, errs)

/-- Re-application of the main.py line 40 coercion to a count column that is
already numeric (every cell a `RawCell.numeric`). -/
def recoerce_aantal (t : List Row) : List Row :=
  t.map (fun r => { r with aantal := coerce_aantal (RawCell.numeric r.aantal) })

/-- Modelled from the spec (section 4.4, aggregate 1): "`current_year` = max
year present in `doubly_filtered` (fallback to a fixed default, e.g. 2024, if
the view is empty)". -/
def specCurrentYear (hs : List Row) : ℤ :=
  match hs.map (fun r => r.jaar) with
  | [] => 2024
  | y :: ys => ys.foldl max y

/-- Non-negativity of the value a parsable numeric cell carries; non-parsable
and missing cells are coerced to `0` and need no condition. -/
def cellNonNeg : RawCell → Prop
  | .numeric n => 0 ≤ n
  | .nonNumeric => True
  | .missing => True

instance : DecidablePred cellNonNeg := fun c =>
  match c with
  | .numeric n => inferInstanceAs (Decidable (0 ≤ n))
  | .nonNumeric => inferInstanceAs (Decidable True)
  | .missing => inferInstanceAs (Decidable True)

/-- Convenience constructor for a combined-table row, fields in the order
(`Jaar`, source institution, source education type, destination institution,
destination program, `Aantal`). -/
def mkRow (j : ℤ) (hi : Option String) (hsoort : Option String)
    (bi : Option String) (op : Option String) (a : ℤ) : Row :=
  { jaar := j, aantal := a, herkomstInstelling := hi,
    herkomstOnderwijssoort := hsoort, hoInstelling := bi, hoOpleiding := op }

/-- A one-row combined table whose source-education-type cell is missing. -/
def dMissingSoort : List Row :=
  [mkRow 2024 (some "R") none (some "S") (some "P") 5]

/-- A one-row combined table with all cells present, year 2024. -/
def dOneRow : List Row :=
  [mkRow 2024 (some "R") (some "bol") (some "S") (some "P") 5]

/-- A single uploaded file that parses successfully and carries a numeric
count cell of `-5`. -/
def negFiles : List UploadedFile :=
  [{ name := "a.csv",
     parsed := Except.ok
       [{ jaar := RawCell.numeric 2024, aantal := RawCell.numeric (-5),
          herkomstInstelling := some "R", herkomstOnderwijssoort := some "bol",
          hoInstelling := some "S", hoOpleiding := some "P" }] }]

/-- A single uploaded file that parses successfully with a non-negative count. -/
def goodFiles : List UploadedFile :=
  [{ name := "b.csv",
     parsed := Except.ok
       [{ jaar := RawCell.numeric 2023, aantal := RawCell.numeric 10,
          herkomstInstelling := some "R", herkomstOnderwijssoort := some "bol",
          hoInstelling := some "S", hoOpleiding := some "P" }] }]

/-- An 11-program view for the top-10 cutoff: programs `pB` and `pA` are tied
at 5 (with `pB` first in row order), programs `q1` … `q9` each have 10. -/
def dTies : List Row :=
  [mkRow 2024 (some "R") (some "bol") (some "S") (some "pB") 5,
   mkRow 2024 (some "R") (some "bol") (some "S") (some "pA") 5,
   mkRow 2024 (some "R") (some "bol") (some "S") (some "q1") 10,
   mkRow 2024 (some "R") (some "bol") (some "S") (some "q2") 10,
   mkRow 2024 (some "R") (some "bol") (some "S") (some "q3") 10,
   mkRow 2024 (some "R") (some "bol") (some "S") (some "q4") 10,
   mkRow 2024 (some "R") (some "bol") (some "S") (some "q5") 10,
   mkRow 2024 (some "R") (some "bol") (some "S") (some "q6") 10,
   mkRow 2024 (some "R") (some "bol") (some "S") (some "q7") 10,
   mkRow 2024 (some "R") (some "bol") (some "S") (some "q8") 10,
   mkRow 2024 (some "R") (some "bol") (some "S") (some "q9") 10]

/-- Rows on which a partial key is defined are exactly the ones `filterMap`
keeps: pre-filtering by definedness changes nothing. -/
lemma filterMap_filter_isSome {α β : Type} (g : α → Option β) (l : List α) :
    (l.filter (fun a => (g a).isSome)).filterMap g = l.filterMap g := by
  induction l with
  | nil => rfl
  | cons x xs ih =>
    cases hx : g x <;> simp [List.filter_cons, List.filterMap_cons, hx, ih]

/-- Two successive filters commute. -/
lemma filter_swap {α : Type} (p q : α → Bool) (t : List α) :
    (t.filter p).filter q = (t.filter q).filter p := by
  rw [List.filter_filter, List.filter_filter]
  exact List.filter_congr (fun x _ => Bool.and_comm (q x) (p x))

/-- Rows whose group key is missing are dropped by a one-column grouped sum:
removing them beforehand leaves the grouped output unchanged. -/
lemma groupbySumStr_filter_isSome (key : Row → Option String) (t : List Row) :
    groupbySumStr key (t.filter (fun r => (key r).isSome)) = groupbySumStr key t := by
  have hf : ∀ k : String,
      (t.filter (fun r => (key r).isSome)).filter (fun r => key r == some k) =
        t.filter (fun r => key r == some k) := by
    intro k
    rw [List.filter_filter]
    refine List.filter_congr (fun x _ => ?_)
    cases hx : key x <;> simp [hx]
  simp only [groupbySumStr, groupKeysStr, filterMap_filter_isSome, hf]

/-- Rows whose string group key is missing are dropped by a
(`Jaar`, string-key) grouped sum as well. -/
lemma groupbySum2_filter_isSome (key : Row → Option String) (t : List Row) :
    groupbySum2 key (t.filter (fun r => (key r).isSome)) = groupbySum2 key t := by
  have hkp : (t.filter (fun r => (key r).isSome)).filterMap (keyPair key) =
      t.filterMap (keyPair key) := by
    have hpred : ∀ x ∈ t, ((key x).isSome : Bool) = ((keyPair key x).isSome : Bool) := by
      intro x _
      cases hx : key x <;> simp [keyPair, hx]
    rw [List.filter_congr hpred, filterMap_filter_isSome]
  have hf : ∀ p : ℤ × String,
      (t.filter (fun r => (key r).isSome)).filter
          (fun r => r.jaar == p.1 && key r == some p.2) =
        t.filter (fun r => r.jaar == p.1 && key r == some p.2) := by
    intro p
    rw [List.filter_filter]
    refine List.filter_congr (fun x _ => ?_)
    cases hx : key x <;> simp [hx]
  simp only [groupbySum2, groupKeys2, hkp, hf]

/-- A left fold of `max` lands on one of the folded values. -/
lemma foldl_max_mem (y : ℤ) (ys : List ℤ) : ys.foldl max y ∈ y :: ys := by
  induction ys generalizing y with
  | nil => simp
  | cons z zs ih =>
    rw [List.foldl_cons]
    rcases List.mem_cons.mp (ih (max y z)) with h | h
    · rw [h]
      rcases max_choice y z with hm | hm <;> rw [hm]
      · exact List.mem_cons_self _ _
      · exact List.mem_cons_of_mem y (List.mem_cons_self _ _)
    · exact List.mem_cons_of_mem y (List.mem_cons_of_mem z h)

/-- A left fold of `max` bounds every folded value from above. -/
lemma le_foldl_max (y : ℤ) (ys : List ℤ) : ∀ x ∈ y :: ys, x ≤ ys.foldl max y := by
  induction ys generalizing y with
  | nil =>
    intro x hx
    rcases List.mem_cons.mp hx with h | h
    · simp [h]
    · exact absurd h (List.not_mem_nil x)
  | cons z zs ih =>
    intro x hx
    rw [List.foldl_cons]
    rcases List.mem_cons.mp hx with h | h
    · subst h
      exact le_trans (le_max_left x z) (ih (max x z) (max x z) (List.mem_cons_self _ _))
    · rcases List.mem_cons.mp h with h1 | h1
      · subst h1
        exact le_trans (le_max_right y x) (ih (max y x) (max y x) (List.mem_cons_self _ _))
      · exact ih (max y z) x (List.mem_cons_of_mem _ h1)

/-- The head of the descending sort of the distinct years — what line 79 of
main.py picks — is the maximum year present, with 2024 as the empty fallback. -/
lemma huidig_jaar_eq_specCurrentYear (t : List Row) :
    huidig_jaar t = specCurrentYear t := by
  unfold huidig_jaar specCurrentYear jaren
  cases hl : t.map (fun r => r.jaar) with
  | nil => rfl
  | cons y ys =>
    have hperm := List.perm_insertionSort geIntP ((y :: ys).dedup)
    have hsort := List.sorted_insertionSort geIntP ((y :: ys).dedup)
    cases hcons : List.insertionSort geIntP ((y :: ys).dedup) with
    | nil =>
      rw [hcons] at hperm
      have h1 : ((y :: ys).dedup) = [] := hperm.symm.eq_nil
      rw [List.dedup_eq_nil] at h1
      exact absurd h1 (List.cons_ne_nil y ys)
    | cons h rest =>
      have hh_mem : h ∈ y :: ys := by
        have hmem : h ∈ List.insertionSort geIntP ((y :: ys).dedup) := by
          rw [hcons]; exact List.mem_cons_self _ _
        exact List.mem_dedup.mp (hperm.mem_iff.mp hmem)
      have hh_le : h ≤ ys.foldl max y := le_foldl_max y ys h hh_mem
      have hm_mem : ys.foldl max y ∈ List.insertionSort geIntP ((y :: ys).dedup) :=
        hperm.mem_iff.mpr (List.mem_dedup.mpr (foldl_max_mem y ys))
      have hm_le : ys.foldl max y ≤ h := by
        rw [hcons] at hm_mem
        rcases List.mem_cons.mp hm_mem with h1 | h1
        · exact le_of_eq h1
        · rw [hcons] at hsort
          exact (List.pairwise_cons.mp hsort).1 _ h1
      simpa [List.headD] using le_antisymm hh_le hm_le

/-- The ingestion loop collects exactly the successfully parsed tables and one
error report per failing file, in input order. -/
lemma load_loop_eq (files : List UploadedFile) :
    load_loop files = (files.filterMap okTable, files.filterMap errPair) := by
  suffices h : ∀ acc : List (List RawRow) × List (String × String),
      files.foldl load_step acc =
        (acc.1 ++ files.filterMap okTable, acc.2 ++ files.filterMap errPair) by
    simpa [load_loop] using h ([], [])
  induction files with
  | nil => intro acc; simp
  | cons f fs ih =>
    intro acc
    rw [List.foldl_cons]
    rw [ih (load_step acc f)]
    cases hp : f.parsed with
    | ok df => simp [load_step, okTable, errPair, hp, Except.toOption]
    | error e => simp [load_step, okTable, errPair, hp, Except.toOption]

/-- Closed form of `load_and_combine_data`: the error reports name each failing
file with its cause, and the table is either the coerced concatenation of all
successfully parsed tables or the `None` "no data" signal. -/
lemma load_and_combine_eq (files : List UploadedFile) :
    load_and_combine_data files =
      (if (files.filterMap okTable).isEmpty then none
       else some (((files.filterMap okTable).flatten).map combineRow),
       files.filterMap errPair) := by
  simp only [load_and_combine_data, load_loop_eq]
  split <;> rfl

/-- Specification of `nlargest`: at most `n` rows come back, and every row kept
has a summed count at least that of every grouped row left out. -/
lemma nlargest_spec (n : ℕ) (g : List (String × ℤ)) :
    (nlargest n g).length ≤ n ∧
    ∀ p ∈ nlargest n g, ∀ q ∈ g, q ∉ nlargest n g → q.2 ≤ p.2 := by
  constructor
  · exact List.length_take_le n _
  · intro p hp q hq hqn
    simp only [nlargest] at hp hqn
    have hsorted : List.Pairwise geValP (List.insertionSort geValP g) :=
      List.sorted_insertionSort geValP g
    have hq_s : q ∈ List.insertionSort geValP g :=
      (List.perm_insertionSort geValP g).mem_iff.mpr hq
    have hsplit : (List.insertionSort geValP g).take n ++ (List.insertionSort geValP g).drop n =
        List.insertionSort geValP g := List.take_append_drop n _
    have hq_drop : q ∈ (List.insertionSort geValP g).drop n := by
      rcases List.mem_append.mp (by rw [hsplit]; exact hq_s) with h | h
      · exact absurd h hqn
      · exact h
    have hpair : List.Pairwise geValP
        ((List.insertionSort geValP g).take n ++ (List.insertionSort geValP g).drop n) := by
      rw [hsplit]
      exact hsorted
    exact (List.pairwise_append.mp hpair).2.2 p hp q hq_drop

/-- C1 fails on the code: a row of the doubly filtered view whose
source-education-type cell is missing carries count 5, yet the pathway-type
grouped sum is empty — pandas `groupby` (default `dropna=True`) dropped the
row instead of keeping it under a 'missing' group. -/
theorem C1_counterexample :
    mkRow 2024 (some "R") none (some "S") (some "P") 5 ∈ ho_subset dMissingSoort "R" ["S"] ∧
    (mkRow 2024 (some "R") none (some "S") (some "P") 5).herkomstOnderwijssoort = none ∧
    (mkRow 2024 (some "R") none (some "S") (some "P") 5).aantal = 5 ∧
    herkomst_type (ho_subset dMissingSoort "R" ["S"]) = [] := by
  decide

/-- C1 (amended): each of the four grouped-sum aggregates drops rows whose
group-key column is missing: removing such rows beforehand leaves the
multi-year trend, market-share snapshot, top-10 programs and pathway-type
trend unchanged, so a missing key never forms a group of its own. -/
theorem C1_missing_keys_dropped (data : List Row) (sh : String) (sho : List String) (y : ℤ) :
    trend_data ((ho_subset data sh sho).filter (fun r => r.hoInstelling.isSome)) =
      trend_data (ho_subset data sh sho) ∧
    markt_data ((filtered_df data sh).filter (fun r => r.hoInstelling.isSome)) y =
      markt_data (filtered_df data sh) y ∧
    sector_data ((ho_subset data sh sho).filter (fun r => r.hoOpleiding.isSome)) y =
      sector_data (ho_subset data sh sho) y ∧
    herkomst_type ((ho_subset data sh sho).filter (fun r => r.herkomstOnderwijssoort.isSome)) =
      herkomst_type (ho_subset data sh sho) := by
  refine ⟨?_, ?_, ?_, ?_⟩
  · exact groupbySum2_filter_isSome (fun r => r.hoInstelling) (ho_subset data sh sho)
  · unfold markt_data
    rw [filter_swap, groupbySumStr_filter_isSome]
  · unfold sector_data sector_data_grouped
    rw [filter_swap, groupbySumStr_filter_isSome]
  · exact groupbySum2_filter_isSome (fun r => r.herkomstOnderwijssoort) (ho_subset data sh sho)

/-- C2 fails on the code: with an empty destination selection the doubly
filtered view is empty, yet the market-share snapshot — computed over
`filtered_df`, not `ho_subset` — still reports a non-empty, non-zero result. -/
theorem C2_counterexample :
    ho_subset dOneRow "R" [] = [] ∧
    markt_data (filtered_df dOneRow "R") (huidig_jaar (ho_subset dOneRow "R" [])) = [("S", 5)] := by
  decide

/-- C2 (amended): an empty destination selection empties `ho_subset`, and every
aggregate computed from it reports zero or empty without error: the KPI year
falls back to 2024, both totals are 0, no delta is shown, both distinct counts
are 0, and the trend, top-10 and pathway-type aggregates are empty.  (The
market-share snapshot is computed from `filtered_df` and is exempt.) -/
theorem C2_empty_destinations (data : List Row) (sh : String) :
    ho_subset data sh [] = [] ∧
    huidig_jaar (ho_subset data sh []) = 2024 ∧
    totaal_huidig (ho_subset data sh []) = 0 ∧
    totaal_vorig (ho_subset data sh []) = 0 ∧
    delta (ho_subset data sh []) = none ∧
    kpi_instellingen (ho_subset data sh []) = 0 ∧
    kpi_opleidingen (ho_subset data sh []) = 0 ∧
    trend_data (ho_subset data sh []) = [] ∧
    sector_data (ho_subset data sh []) (huidig_jaar (ho_subset data sh [])) = [] ∧
    herkomst_type (ho_subset data sh []) = [] := by
  have h0 : ho_subset data sh [] = [] := by
    unfold ho_subset
    refine List.filter_eq_nil_iff.mpr (fun r hr => ?_)
    cases hx : r.hoInstelling <;> simp [hx]
  rw [h0]
  decide

/-- C3 fails on the code: a parsable negative count cell survives coercion
unchanged, so the combined count column is not non-negative. -/
theorem C3_counterexample :
    (load_and_combine_data negFiles).1 =
      some [mkRow 2024 (some "R") (some "bol") (some "S") (some "P") (-5)] ∧
    (mkRow 2024 (some "R") (some "bol") (some "S") (some "P") (-5)).aantal < 0 := by
  decide

/-- C3 (amended): after combination every count value is numeric, with
non-parsable and missing cells mapped to 0; the column is non-negative
provided every parsable count cell of the successfully parsed files is
non-negative (negative parsed values are preserved as-is). -/
theorem C3_count_numeric (files : List UploadedFile)
    (hnn : ∀ f ∈ files, ∀ rr ∈ (okTable f).getD [], cellNonNeg rr.aantal) :
    (coerce_aantal RawCell.nonNumeric = 0 ∧ coerce_aantal RawCell.missing = 0) ∧
    ∀ r ∈ ((load_and_combine_data files).1).getD [], 0 ≤ r.aantal := by
  refine ⟨⟨rfl, rfl⟩, ?_⟩
  intro r hr
  rw [load_and_combine_eq] at hr
  cases hemp : (files.filterMap okTable).isEmpty with
  | true => simp [hemp] at hr
  | false =>
    simp only [hemp, Bool.false_eq_true, if_false] at hr
    rcases List.mem_map.mp hr with ⟨rr, hrr, hcomb⟩
    rcases List.mem_flatten.mp hrr with ⟨tbl, htbl, hrr2⟩
    rcases List.mem_filterMap.mp htbl with ⟨f, hf, hok⟩
    have h5 : cellNonNeg rr.aantal := by
      refine hnn f hf rr ?_
      rw [hok]
      exact hrr2
    rw [← hcomb]
    have h7 : (combineRow rr).aantal = coerce_aantal rr.aantal := rfl
    cases hc : rr.aantal with
    | numeric n =>
      have h6 : cellNonNeg (RawCell.numeric n) := hc ▸ h5
      rw [h7, hc]
      exact h6
    | nonNumeric =>
      rw [h7, hc]
      exact le_refl 0
    | missing =>
      rw [h7, hc]
      exact le_refl 0

/-- Witness for C3 (amended): a concrete batch with a non-negative count cell
satisfies the hypothesis, and its combined table has a non-negative count
column. -/
theorem C3_count_numeric_witness :
    (∀ f ∈ goodFiles, ∀ rr ∈ (okTable f).getD [], cellNonNeg rr.aantal) ∧
    (∀ r ∈ ((load_and_combine_data goodFiles).1).getD [], 0 ≤ r.aantal) :=
  ⟨by decide, (C3_count_numeric goodFiles (by decide)).2⟩

/-- C4: the KPI current year is the maximum year present in the doubly filtered
view (2024 when the view is empty), the prior year is one less, the two totals
sum the count column at those years, and the delta
`totaal_huidig - totaal_vorig` is shown exactly when `totaal_vorig > 0`. -/
theorem C4_kpi_years_and_delta (data : List Row) (sh : String) (sho : List String) :
    huidig_jaar (ho_subset data sh sho) = specCurrentYear (ho_subset data sh sho) ∧
    vorig_jaar (ho_subset data sh sho) = huidig_jaar (ho_subset data sh sho) - 1 ∧
    totaal_huidig (ho_subset data sh sho) =
      sumAantal ((ho_subset data sh sho).filter
        (fun r => r.jaar == huidig_jaar (ho_subset data sh sho))) ∧
    totaal_vorig (ho_subset data sh sho) =
      sumAantal ((ho_subset data sh sho).filter
        (fun r => r.jaar == vorig_jaar (ho_subset data sh sho))) ∧
    delta (ho_subset data sh sho) =
      (if 0 < totaal_vorig (ho_subset data sh sho)
       then some (totaal_huidig (ho_subset data sh sho) - totaal_vorig (ho_subset data sh sho))
       else none) ∧
    ((delta (ho_subset data sh sho)).isSome ↔ 0 < totaal_vorig (ho_subset data sh sho)) := by
  refine ⟨huidig_jaar_eq_specCurrentYear _, rfl, rfl, rfl, rfl, ?_⟩
  by_cases h : 0 < totaal_vorig (ho_subset data sh sho) <;> simp [delta, h]

/-- C5: the ingestion loop parses what it can and reports what it cannot: the
error list names each failing file with its cause, failing files do not change
the combined table, and when no file parses (or none was supplied) the result
is the `None` "no data" signal instead of a table. -/
theorem C5_ingestion_error_handling (files : List UploadedFile) :
    load_and_combine_data files =
      (if (files.filterMap okTable).isEmpty then none
       else some (((files.filterMap okTable).flatten).map combineRow),
       files.filterMap errPair) ∧
    (load_and_combine_data files).1 =
      (load_and_combine_data (files.filter (fun f => (okTable f).isSome))).1 := by
  refine ⟨load_and_combine_eq files, ?_⟩
  rw [load_and_combine_eq files,
    load_and_combine_eq (files.filter (fun f => (okTable f).isSome)),
    filterMap_filter_isSome okTable files]

/-- C6 fails on the code as stated: at the top-10 cutoff, groups `pA` and `pB`
are tied at 5 with `pB` first in input (row) order, yet `pA` is kept and `pB`
excluded — `nlargest` sees the grouped table, which pandas has sorted
alphabetically by program name, so sorted-key order, not first-seen input
order, breaks the tie. -/
theorem C6_counterexample :
    (ho_subset dTies "R" ["S"]).map (fun r => r.hoOpleiding) =
      [some "pB", some "pA", some "q1", some "q2", some "q3", some "q4",
       some "q5", some "q6", some "q7", some "q8", some "q9"] ∧
    ("pA", 5) ∈ sector_data (ho_subset dTies "R" ["S"]) (huidig_jaar (ho_subset dTies "R" ["S"])) ∧
    ("pB", 5) ∉ sector_data (ho_subset dTies "R" ["S"]) (huidig_jaar (ho_subset dTies "R" ["S"])) := by
  decide

/-- C6 (amended): the top-10 aggregate returns at most 10 rows and every
returned row's summed count is at least that of any excluded group; ties at
the cutoff are broken by the grouped table's order — sorted alphabetically by
program name — rather than by first-seen input order. -/
theorem C6_top10_bound (data : List Row) (sh : String) (sho : List String) :
    (sector_data (ho_subset data sh sho) (huidig_jaar (ho_subset data sh sho))).length ≤ 10 ∧
    ∀ p ∈ sector_data (ho_subset data sh sho) (huidig_jaar (ho_subset data sh sho)),
      ∀ q ∈ sector_data_grouped (ho_subset data sh sho) (huidig_jaar (ho_subset data sh sho)),
        q ∉ sector_data (ho_subset data sh sho) (huidig_jaar (ho_subset data sh sho)) →
          q.2 ≤ p.2 :=
  nlargest_spec 10 (sector_data_grouped (ho_subset data sh sho) (huidig_jaar (ho_subset data sh sho)))

/-- Witness for C6 (amended): on the tie data set, the kept group `q1` weakly
dominates the excluded tied group `pB`. -/
theorem C6_top10_bound_witness :
    (("q1", (10 : ℤ)) ∈
      sector_data (ho_subset dTies "R" ["S"]) (huidig_jaar (ho_subset dTies "R" ["S"]))) ∧
    (("pB", (5 : ℤ)) ∈
      sector_data_grouped (ho_subset dTies "R" ["S"]) (huidig_jaar (ho_subset dTies "R" ["S"]))) ∧
    (("pB", (5 : ℤ)) ∉
      sector_data (ho_subset dTies "R" ["S"]) (huidig_jaar (ho_subset dTies "R" ["S"]))) ∧
    (5 : ℤ) ≤ 10 :=
  ⟨by decide, by decide, by decide,
   (C6_top10_bound dTies "R" ["S"]).2 ("q1", 10) (by decide) ("pB", 5) (by decide) (by decide)⟩

/-- C7: filtering only narrows — the doubly filtered view is a sublist (hence a
row subset) of the source-filtered view, which is a sublist (hence a row
subset) of the combined table. -/
theorem C7_filtering_narrows (data : List Row) (sh : String) (sho : List String) :
    (ho_subset data sh sho).Sublist (filtered_df data sh) ∧
    (filtered_df data sh).Sublist data ∧
    ho_subset data sh sho ⊆ filtered_df data sh ∧
    filtered_df data sh ⊆ data :=
  ⟨List.filter_sublist _, List.filter_sublist _,
   (List.filter_sublist _).subset, (List.filter_sublist _).subset⟩

/-- C8: re-applying the count coercion to an already-numeric count column
changes nothing. -/
theorem C8_coercion_idempotent (t : List Row) : recoerce_aantal t = t := by
  have hfun : (fun r : Row =>
      { r with aantal := coerce_aantal (RawCell.numeric r.aantal) }) = fun r : Row => r :=
    funext fun _ => rfl
  unfold recoerce_aantal
  rw [hfun, List.map_id']

/-- C9: for any selectable source institution, rows with a missing source name
appear neither in the source-filtered view nor in any doubly filtered view,
and every selector option is a non-missing source name present in the data. -/
theorem C9_missing_source_excluded (data : List Row) (sel : String)
    (hsel : sel ∈ alle_herkomst data) :
    (∀ r ∈ filtered_df data sel, r.herkomstInstelling ≠ none) ∧
    (∀ sho : List String, ∀ r ∈ ho_subset data sel sho, r.herkomstInstelling ≠ none) ∧
    (∃ r ∈ data, r.herkomstInstelling = some sel) := by
  have hkey : ∀ r ∈ filtered_df data sel, r.herkomstInstelling ≠ none := by
    intro r hr h0
    simp only [filtered_df] at hr
    have hp : (r.herkomstInstelling == some sel) = true := (List.mem_filter.mp hr).2
    rw [h0] at hp
    simp at hp
  refine ⟨hkey, fun sho r hr => hkey r ((List.filter_sublist _).subset hr), ?_⟩
  have h1 : sel ∈ (data.filterMap (fun r => r.herkomstInstelling)).dedup :=
    (List.perm_insertionSort strLeP
      ((data.filterMap (fun r => r.herkomstInstelling)).dedup)).mem_iff.mp hsel
  rcases List.mem_filterMap.mp (List.mem_dedup.mp h1) with ⟨r, hr, hmap⟩
  exact ⟨r, hr, hmap⟩

/-- Witness for C9: on a concrete table, "R" is a selector option and is
carried by a row of the data. -/
theorem C9_missing_source_excluded_witness :
    ("R" ∈ alle_herkomst dOneRow) ∧ (∃ r ∈ dOneRow, r.herkomstInstelling = some "R") :=
  ⟨by decide, (C9_missing_source_excluded dOneRow "R" (by decide)).2.2⟩

/-- C10: the pipeline is deterministic — equal uploaded batches and equal
filter selections produce identical combined tables, filtered views, KPI
values, aggregates and error reports. -/
theorem C10_deterministic (f1 f2 : List UploadedFile) (s1 s2 : String)
    (d1 d2 : List String) (hf : f1 = f2) (hs : s1 = s2) (hd : d1 = d2) :
    runDashboard f1 s1 d1 = runDashboard f2 s2 d2 := by
  subst hf
  subst hs
  subst hd
  rfl

/-- Witness for C10: two runs on the same concrete batch and selections agree. -/
theorem C10_deterministic_witness :
    goodFiles = goodFiles ∧
    runDashboard goodFiles "R" ["S"] = runDashboard goodFiles "R" ["S"] :=
  ⟨rfl, C10_deterministic goodFiles goodFiles "R" "R" ["S"] ["S"] rfl rfl rfl⟩

end DuoMonitor
